/-
Verification of the Garage-Parking-Assistant orchestration core.

The definitions below are a shallow embedding of the Python sources
(src/garage_parking_assistant/main.py and collaborators).  Distances,
thresholds and timestamps are modelled as rationals (Python floats in
seconds / centimetres); a missing reading (Python `None`) is `Option.none`.
Side effects (MQTT publications, the outgoing door command, starting and
stopping the detection thread, LED actions) are modelled as an explicit
list of events returned next to the updated controller state.
-/
import Mathlib

namespace GarageAssistant

/-- The three proximity sensors of the bay. -/
inductive Sensor
  | front
  | left
  | right
  deriving DecidableEq, Repr

/-- The process values `"PARKING"` / `"EXITING"` stored in
`GarageParkingAssistant.process`; the Python `None` ("IDLE") is modelled
as `Option.none` around this type. -/
inductive Process
  | PARKING
  | EXITING
  deriving DecidableEq, Repr

/-- Python logging levels used by the controller. -/
inductive LogLevel
  | debug
  | info
  | warning
  | error
  deriving DecidableEq, Repr

/-- Observable side effects of the controller, in emission order:
MQTT publications, the outbound garage command, detection-thread
start/stop, and LED actions. -/
inductive Event
  | publishProcess (p : String)
  | publishGarageState (doorOpen : Bool)
  | publishSystemEnabled (b : Bool)
  | publishUnauthorized
  | sendGarageCommand (c : String)
  | publishAiDetection (s : String)
  | publishDistances
  | startDetection
  | stopDetection
  | measureDistances
  | ledUpdate
  | ledClear
  | stopBlinking
  | resetLedsDefault
  deriving DecidableEq, Repr

/-- The mutable fields of `GarageParkingAssistant` (main.py `__init__`)
together with the thresholds held by its `SensorManager` and the LED
brightness held by its `LedManager`. -/
structure State where
  system_enabled : Bool
  distances : Sensor → Option ℚ
  parking_procedure_active : Bool
  garage_door_open : Bool
  user_is_home : Bool
  process : Option Process
  close_command_sent : Bool
  red_proximity_start_time : Option ℚ
  red_threshold : Sensor → Option ℚ
  orange_threshold : Sensor → ℚ
  brightness : ℚ

/-- Python `str.upper`: uppercases every character. -/
def pyUpper (s : String) : String := String.mk (s.data.map Char.toUpper)

/-- Python `str.lower`: lowercases every character. -/
def pyLower (s : String) : String := String.mk (s.data.map Char.toLower)

/-- The loop body of `GarageParkingAssistant.is_car_in_garage` for one
sensor: a `None` reading or a reading strictly above the sensor's orange
threshold means "not close". -/
def sensor_within_orange (s : State) (sensor : Sensor) : Bool :=
  match s.distances sensor with
  | none => false
  | some d => decide (d ≤ s.orange_threshold sensor)

/-- `GarageParkingAssistant.is_car_in_garage` (main.py lines 187-209):
walks the sensors front, left, right; a `None` reading or a reading
strictly above that sensor's orange threshold returns `False`;
otherwise returns `True`. -/
def is_car_in_garage (s : State) : Bool :=
  [Sensor.front, Sensor.left, Sensor.right].all (sensor_within_orange s)

/-- `GarageParkingAssistant.update_system_enabled_state` (main.py lines
154-166): recomputes `system_enabled = user_is_home and garage_door_open`
and publishes the flag only when its value changed. -/
def update_system_enabled_state (s : State) : State × List Event :=
  let newEnabled := s.user_is_home && s.garage_door_open
  ({ s with system_enabled := newEnabled },
   if newEnabled ≠ s.system_enabled then [Event.publishSystemEnabled newEnabled] else [])

/-- `GarageParkingAssistant.measure_and_update_distances` (main.py lines
261-278): the sensor manager overwrites the distance snapshot (the fresh
readings are the parameter `newD`), the LEDs are refreshed and the
snapshot is published. -/
def measure_and_update_distances (s : State) (newD : Sensor → Option ℚ) :
    State × List Event :=
  ({ s with distances := newD },
   [Event.measureDistances, Event.ledUpdate, Event.publishDistances])

/-- `GarageParkingAssistant.start_parking_procedure` (main.py lines
211-241): when the procedure is not yet active it measures distances,
evaluates `is_car_in_garage` on the fresh snapshot, publishes `EXITING`
(occupied) or `PARKING` plus a detection start (empty), and marks the
procedure active; when already active it does nothing. -/
def start_parking_procedure (s : State) (newD : Sensor → Option ℚ) :
    State × List Event :=
  if s.parking_procedure_active then (s, [])
  else
    let m := measure_and_update_distances s newD
    let s1 := m.1
    if is_car_in_garage s1 then
      ({ s1 with process := some Process.EXITING, parking_procedure_active := true },
       m.2 ++ [Event.publishProcess "EXITING"])
    else
      ({ s1 with process := some Process.PARKING, parking_procedure_active := true },
       m.2 ++ [Event.publishProcess "PARKING", Event.startDetection])

/-- The `logger` calls performed by `start_parking_procedure`
(main.py lines 215, 225, 229, 235), in order. -/
def start_parking_procedure_logs (s : State) (newD : Sensor → Option ℚ) :
    List (LogLevel × String) :=
  if s.parking_procedure_active then
    [(LogLevel.info, "Parking procedure already active.")]
  else if is_car_in_garage { s with distances := newD } then
    [(LogLevel.info, "Garage door is open. Starting parking procedure."),
     (LogLevel.info, "Process identified: Exiting the garage.")]
  else
    [(LogLevel.info, "Garage door is open. Starting parking procedure."),
     (LogLevel.info, "Process identified: Parking procedure.")]

/-- `GarageParkingAssistant.stop_parking_procedure` (main.py lines
243-259): when the procedure is active it deactivates it, clears the
process, publishes `IDLE`, stops detection, resets the one-shot close
flag and the debounce timer, and publishes the idle detection state;
otherwise it does nothing. -/
def stop_parking_procedure (s : State) : State × List Event :=
  if s.parking_procedure_active then
    ({ s with parking_procedure_active := false,
              process := none,
              close_command_sent := false,
              red_proximity_start_time := none },
     [Event.publishProcess "IDLE", Event.stopDetection,
      Event.publishAiDetection "IDLE"])
  else (s, [])

/-- `GarageParkingAssistant.on_garage_command` (main.py lines 123-152):
uppercases the command; `OPEN` is honored only when the user is home
(otherwise an unauthorized-attempt notice is published and nothing
changes); `CLOSE` is always honored; any other value raises
`GarageParkingAssistantError`, modelled as `Except.error`. -/
def on_garage_command (s : State) (cmd : String) (newD : Sensor → Option ℚ) :
    Except String (State × List Event) :=
  let c := pyUpper cmd
  if c = "OPEN" then
    if s.user_is_home then
      let s1 : State := { s with garage_door_open := true }
      let p := start_parking_procedure s1 newD
      let u := update_system_enabled_state p.1
      Except.ok (u.1, p.2 ++ u.2 ++ [Event.publishGarageState u.1.garage_door_open])
    else
      Except.ok (s, [Event.publishUnauthorized])
  else if c = "CLOSE" then
    let s1 : State := { s with garage_door_open := false }
    let p := stop_parking_procedure s1
    let u := update_system_enabled_state p.1
    Except.ok (u.1, p.2 ++ u.2 ++ [Event.publishGarageState u.1.garage_door_open])
  else
    Except.error c

/-- `GarageParkingAssistant.on_user_status_update` (main.py lines
168-175): stores whether the lowercased status equals `"on"` and
recomputes the enabled flag. -/
def on_user_status_update (s : State) (status : String) : State × List Event :=
  update_system_enabled_state { s with user_is_home := pyLower status = "on" }

/-- `GarageParkingAssistant.on_garage_state_update` (main.py lines
177-185): stores whether the lowercased state equals `"open"` and
recomputes the enabled flag. -/
def on_garage_state_update (s : State) (st : String) : State × List Event :=
  update_system_enabled_state { s with garage_door_open := pyLower st = "open" }

/-- `GarageParkingAssistant.update_settings` together with
`SensorManager.update_thresholds` and `LedManager.update_brightness`:
each per-sensor red/orange threshold present in the payload overwrites
the stored one, and `brightness` defaults to the current value. -/
def update_settings (s : State) (redU orangeU : Sensor → Option ℚ)
    (brightnessU : Option ℚ) : State :=
  { s with red_threshold := fun x =>
             match redU x with
             | some v => some v
             | none => s.red_threshold x,
           orange_threshold := fun x => (orangeU x).getD (s.orange_threshold x),
           brightness := brightnessU.getD s.brightness }

/-- `GarageParkingAssistant.handle_automatic_garage_closure` (main.py
lines 280-333) at wall-clock time `now`: valid front reading within the
red threshold starts or checks the debounce timer; after a dwell of at
least 5 s in `PARKING` with the one-shot flag clear it sends `CLOSE`,
sets the flag and disables the system; an invalid reading or one above
the red threshold clears the timer. -/
def handle_automatic_garage_closure (s : State) (now : ℚ) : State × List Event :=
  match s.distances Sensor.front, s.red_threshold Sensor.front with
  | some fd, some rt =>
    if 0 < fd then
      if fd ≤ rt then
        match s.red_proximity_start_time with
        | none => ({ s with red_proximity_start_time := some now }, [])
        | some t0 =>
          if 5 ≤ now - t0 ∧ s.process = some Process.PARKING ∧
              s.close_command_sent = false then
            ({ s with close_command_sent := true, system_enabled := false },
             [Event.sendGarageCommand "CLOSE", Event.publishSystemEnabled false])
          else (s, [])
      else ({ s with red_proximity_start_time := none }, [])
    else ({ s with red_proximity_start_time := none }, [])
  | _, _ => ({ s with red_proximity_start_time := none }, [])

/-- `AIModule._majority_vote` (ai_detection.py lines 102-109):
`sum(results) > len(results) / 2` with Python true division. -/
def majority_vote (detection_results : List Bool) : Bool :=
  decide ((detection_results.count true : ℚ) > (detection_results.length : ℚ) / 2)

/-- The tail of `GarageParkingAssistant.handle_blinking` (main.py lines
98-103), reached on normal expiry of the 10 s window: stop blinking,
restore the LEDs to the distance display, and restart detection exactly
when `parking_procedure_active` is still true. -/
def handle_blinking_expiry (s : State) : List Event :=
  [Event.stopBlinking, Event.resetLedsDefault] ++
    (if s.parking_procedure_active then [Event.startDetection] else [])

/-- `GarageParkingAssistant.handle_blinking` (main.py lines 90-103):
`samples` are the values of `parking_procedure_active` observed by the
once-per-second poll during the 10 s window (a `false` sample returns
early with no effect), and `sEnd` is the state at the final
post-restore check. -/
def handle_blinking (samples : List Bool) (sEnd : State) : List Event :=
  if samples.contains false then [] else handle_blinking_expiry sEnd

/-- Folding `handle_automatic_garage_closure` over a list of tick
times, accumulating the emitted events; this is the active main-loop
branch with the distance snapshot held fixed. -/
def runClosure (s : State) (ts : List ℚ) : State × List Event :=
  match ts with
  | [] => (s, [])
  | t :: rest =>
    let r1 := handle_automatic_garage_closure s t
    let r2 := runClosure r1.1 rest
    (r2.1, r1.2 ++ r2.2)

/-- One active, non-blinking main-loop tick (main.py lines 342-344):
measure fresh distances, then evaluate the automatic closure. -/
def measureThenClosure (s : State) (newD : Sensor → Option ℚ) (now : ℚ) :
    State × List Event :=
  let m := measure_and_update_distances s newD
  let c := handle_automatic_garage_closure m.1 now
  (c.1, m.2 ++ c.2)

/-- Folding `measureThenClosure` over a list of (snapshot, time) ticks. -/
def runTicks (s : State) (ticks : List ((Sensor → Option ℚ) × ℚ)) :
    State × List Event :=
  match ticks with
  | [] => (s, [])
  | tk :: rest =>
    let r1 := measureThenClosure s tk.1 tk.2
    let r2 := runTicks r1.1 rest
    (r2.1, r1.2 ++ r2.2)

/-- Recognizer for the outgoing `CLOSE` door command among events. -/
def isCloseCommand : Event → Bool
  | Event.sendGarageCommand c => c = "CLOSE"
  | _ => false

/-- Number of `CLOSE` door commands in an event list. -/
def countClose (evs : List Event) : ℕ :=
  evs.countP isCloseCommand

/-- The SystemEnabled data-model invariant: the stored flag equals
`user_is_home AND garage_door_open`. -/
def enabledInvariant (s : State) : Prop :=
  s.system_enabled = (s.user_is_home && s.garage_door_open)

/-- An idle controller over an empty bay: door open, user home, no
procedure running, far/no readings. -/
def sIdleEmpty : State where
  system_enabled := false
  distances := fun _ => none
  parking_procedure_active := false
  garage_door_open := true
  user_is_home := true
  process := none
  close_command_sent := false
  red_proximity_start_time := none
  red_threshold := fun _ => some 3
  orange_threshold := fun _ => 10
  brightness := 50

/-- A controller mid-parking-procedure in `PARKING`, all readings 2 cm. -/
def sActive : State :=
  { sIdleEmpty with parking_procedure_active := true,
                    process := some Process.PARKING,
                    distances := fun _ => some 2 }

/-- A parking session in red proximity with the debounce timer already
running since time 0. -/
def sParked : State where
  system_enabled := true
  distances := fun _ => some 2
  parking_procedure_active := true
  garage_door_open := true
  user_is_home := true
  process := some Process.PARKING
  close_command_sent := false
  red_proximity_start_time := some 0
  red_threshold := fun _ => some 3
  orange_threshold := fun _ => 10
  brightness := 50

/-- `sParked` before the car first enters red proximity (timer unset). -/
def sParkedStart : State :=
  { sParked with red_proximity_start_time := none }

/-- A still-active procedure whose process is `EXITING`. -/
def sExitingActive : State :=
  { sParked with process := some Process.EXITING }

/-- A parking session whose front sensor reading is unavailable. -/
def sNoFront : State :=
  { sParked with distances := fun _ => none }

/-- Snapshot with every sensor 2 cm away (inside the red zone). -/
def dRed : Sensor → Option ℚ := fun _ => some 2

/-- Snapshot with every sensor 5 cm away (outside red threshold 3). -/
def dSafe : Sensor → Option ℚ := fun _ => some 5

/-- The spec's debounce-reset scenario: in red at t = 0 and t = 4, out
of red at t = 9/2, back in red at t = 6 and t = 10 (red threshold 3). -/
def debounceTicks : List ((Sensor → Option ℚ) × ℚ) :=
  [(dRed, 0), (dRed, 4), (dSafe, 9/2), (dRed, 6), (dRed, 10)]

lemma sensor_within_orange_iff (s : State) (sn : Sensor) :
    sensor_within_orange s sn = true ↔
      ∃ d, s.distances sn = some d ∧ d ≤ s.orange_threshold sn := by
  unfold sensor_within_orange
  cases h : s.distances sn <;> simp [h]

lemma is_car_in_garage_iff (s : State) :
    is_car_in_garage s = true ↔
      ∀ sn : Sensor, ∃ d, s.distances sn = some d ∧ d ≤ s.orange_threshold sn := by
  unfold is_car_in_garage
  simp only [List.all_cons, List.all_nil, Bool.and_true, Bool.and_eq_true,
    sensor_within_orange_iff]
  constructor
  · rintro ⟨h1, h2, h3⟩ sn
    cases sn
    · exact h1
    · exact h2
    · exact h3
  · intro h
    exact ⟨h Sensor.front, h Sensor.left, h Sensor.right⟩

lemma update_system_enabled_state_inv (x : State) :
    enabledInvariant (update_system_enabled_state x).1 := rfl

lemma runClosure_unfold (s : State) (t : ℚ) (rest : List ℚ) :
    runClosure s (t :: rest) =
      ((runClosure (handle_automatic_garage_closure s t).1 rest).1,
       (handle_automatic_garage_closure s t).2 ++
         (runClosure (handle_automatic_garage_closure s t).1 rest).2) := rfl

lemma closure_sent_stays (s : State) (t : ℚ) (h : s.close_command_sent = true) :
    countClose (handle_automatic_garage_closure s t).2 = 0 ∧
    (handle_automatic_garage_closure s t).1.close_command_sent = true ∧
    (handle_automatic_garage_closure s t).1.system_enabled = s.system_enabled := by
  unfold handle_automatic_garage_closure
  rcases hd : s.distances Sensor.front with _ | d <;>
    rcases hr : s.red_threshold Sensor.front with _ | r <;>
      simp [hd, hr, countClose, h]
  rcases ht : s.red_proximity_start_time with _ | t0 <;>
    split_ifs <;> simp_all [countClose]

lemma runClosure_sent_stays (ts : List ℚ) (s : State)
    (h : s.close_command_sent = true) :
    countClose (runClosure s ts).2 = 0 ∧
    (runClosure s ts).1.close_command_sent = true ∧
    (runClosure s ts).1.system_enabled = s.system_enabled := by
  induction ts generalizing s with
  | nil => simp [runClosure, countClose, h]
  | cons t rest ih =>
    obtain ⟨h1, h2, h3⟩ := closure_sent_stays s t h
    obtain ⟨h4, h5, h6⟩ := ih (handle_automatic_garage_closure s t).1 h2
    rw [runClosure_unfold]
    refine ⟨?_, h5, h6.trans h3⟩
    simp only [countClose, List.countP_append] at h1 h4 ⊢
    rw [h1, h4]

lemma closure_fires (s : State) (t t0 d r : ℚ)
    (hd : s.distances Sensor.front = some d)
    (hr : s.red_threshold Sensor.front = some r)
    (h0 : 0 < d) (hle : d ≤ r)
    (hp : s.process = some Process.PARKING)
    (hs : s.close_command_sent = false)
    (ht : s.red_proximity_start_time = some t0)
    (hfire : 5 ≤ t - t0) :
    handle_automatic_garage_closure s t =
      ({ s with close_command_sent := true, system_enabled := false },
       [Event.sendGarageCommand "CLOSE", Event.publishSystemEnabled false]) := by
  unfold handle_automatic_garage_closure
  simp [hd, hr, h0, hle, hp, hs, ht, hfire]

lemma closure_waits (s : State) (t t0 d r : ℚ)
    (hd : s.distances Sensor.front = some d)
    (hr : s.red_threshold Sensor.front = some r)
    (h0 : 0 < d) (hle : d ≤ r)
    (ht : s.red_proximity_start_time = some t0)
    (hwait : ¬ 5 ≤ t - t0) :
    handle_automatic_garage_closure s t = (s, []) := by
  unfold handle_automatic_garage_closure
  simp [hd, hr, h0, hle, ht, hwait]

lemma closure_dwell_run (ts : List ℚ) (s : State) (t0 d r : ℚ)
    (hd : s.distances Sensor.front = some d)
    (hr : s.red_threshold Sensor.front = some r)
    (h0 : 0 < d) (hle : d ≤ r)
    (hp : s.process = some Process.PARKING)
    (hs : s.close_command_sent = false)
    (ht : s.red_proximity_start_time = some t0)
    (hex : ∃ t ∈ ts, 5 ≤ t - t0) :
    countClose (runClosure s ts).2 = 1 ∧
    (runClosure s ts).1.close_command_sent = true ∧
    (runClosure s ts).1.system_enabled = false := by
  induction ts generalizing s with
  | nil => simp at hex
  | cons t rest ih =>
    by_cases hfire : 5 ≤ t - t0
    · have hstep := closure_fires s t t0 d r hd hr h0 hle hp hs ht hfire
      have hsent : (handle_automatic_garage_closure s t).1.close_command_sent = true := by
        rw [hstep]
      obtain ⟨h4, h5, h6⟩ := runClosure_sent_stays rest _ hsent
      rw [runClosure_unfold]
      refine ⟨?_, h5, ?_⟩
      · simp only [countClose, List.countP_append] at h4 ⊢
        rw [h4, hstep]
        simp [isCloseCommand]
      · rw [h6, hstep]
    · have hstep := closure_waits s t t0 d r hd hr h0 hle ht hfire
      obtain ⟨t2, ht2, h52⟩ := hex
      rcases List.mem_cons.mp ht2 with rfl | ht2r
      · exact absurd h52 hfire
      · have hres := ih s hd hr hp hs ht ⟨t2, ht2r, h52⟩
        rw [runClosure_unfold, hstep]
        simpa [countClose] using hres

/-- Claim C1: while the process is PARKING with the one-shot flag clear
and the front distance pinned in the red zone, a tick sequence whose
dwell reaches 5 s emits exactly one CLOSE command, sets
`close_command_sent`, disables the system, and no later tick of the
session emits another CLOSE command. -/
theorem auto_close_fires_once (s : State) (d r t0 : ℚ) (rest : List ℚ)
    (hd : s.distances Sensor.front = some d)
    (hr : s.red_threshold Sensor.front = some r)
    (h0 : 0 < d) (hle : d ≤ r)
    (hp : s.process = some Process.PARKING)
    (hs : s.close_command_sent = false)
    (ht : s.red_proximity_start_time = none)
    (hex : ∃ t ∈ rest, t0 + 5 ≤ t) :
    countClose (runClosure s (t0 :: rest)).2 = 1 ∧
    (runClosure s (t0 :: rest)).1.close_command_sent = true ∧
    (runClosure s (t0 :: rest)).1.system_enabled = false ∧
    (∀ later : List ℚ,
      countClose (runClosure (runClosure s (t0 :: rest)).1 later).2 = 0) := by
  have hstep : handle_automatic_garage_closure s t0 =
      ({ s with red_proximity_start_time := some t0 }, []) := by
    unfold handle_automatic_garage_closure
    simp [hd, hr, h0, hle, ht]
  have hex2 : ∃ t ∈ rest, 5 ≤ t - t0 := by
    obtain ⟨t, htm, hge⟩ := hex
    exact ⟨t, htm, by linarith⟩
  have hrun := closure_dwell_run rest { s with red_proximity_start_time := some t0 }
    t0 d r hd hr h0 hle hp hs rfl hex2
  rw [runClosure_unfold, hstep]
  obtain ⟨h1, h2, h3⟩ := hrun
  refine ⟨by simpa [countClose] using h1, h2, h3, ?_⟩
  intro later
  exact (runClosure_sent_stays later _ h2).1

/-- Claim C1 witness: the pinned 2 cm / threshold 3 cm session ticked at
t = 0 and t = 6 sends exactly one CLOSE, sets the flag and disables the
system. -/
theorem auto_close_fires_once_witness :
    countClose (runClosure sParkedStart [0, 6]).2 = 1 ∧
    (runClosure sParkedStart [0, 6]).1.close_command_sent = true ∧
    (runClosure sParkedStart [0, 6]).1.system_enabled = false := by
  have h := auto_close_fires_once sParkedStart 2 3 0 [6] rfl rfl (by norm_num)
    (by norm_num) rfl rfl rfl ⟨6, by simp, by norm_num⟩
  exact ⟨h.1, h.2.1, h.2.2.1⟩

/-- Claim C2: the vehicle-presence check returns true iff every sensor
has a non-absent reading at most its orange threshold, and any absent or
over-threshold reading makes it return false. -/
theorem vehicle_present_iff (s : State) :
    (is_car_in_garage s = true ↔
      ∀ sn : Sensor, ∃ d, s.distances sn = some d ∧ d ≤ s.orange_threshold sn) ∧
    (∀ sn : Sensor,
      (s.distances sn = none ∨
        ∃ d, s.distances sn = some d ∧ s.orange_threshold sn < d) →
      is_car_in_garage s = false) := by
  refine ⟨is_car_in_garage_iff s, ?_⟩
  intro sn hbad
  rcases hc : is_car_in_garage s with _ | _
  · rfl
  · exfalso
    obtain ⟨d, hd, hle⟩ := (is_car_in_garage_iff s).mp hc sn
    rcases hbad with hnone | ⟨d2, hd2, hlt⟩
    · rw [hnone] at hd; exact Option.noConfusion hd
    · rw [hd2] at hd
      have : d2 = d := by injection hd
      subst this
      exact absurd hle (not_le.mpr hlt)

/-- Claim C3: an accepted start request while the procedure is inactive
goes to EXITING without starting detection when the presence check on
the fresh snapshot is true, and to PARKING with a detection start when
it is false; the chosen process is published in both cases. -/
theorem start_parking_decision (s : State) (newD : Sensor → Option ℚ)
    (h : s.parking_procedure_active = false) :
    (is_car_in_garage { s with distances := newD } = true →
      (start_parking_procedure s newD).1.process = some Process.EXITING ∧
      Event.publishProcess "EXITING" ∈ (start_parking_procedure s newD).2 ∧
      Event.startDetection ∉ (start_parking_procedure s newD).2) ∧
    (is_car_in_garage { s with distances := newD } = false →
      (start_parking_procedure s newD).1.process = some Process.PARKING ∧
      Event.publishProcess "PARKING" ∈ (start_parking_procedure s newD).2 ∧
      Event.startDetection ∈ (start_parking_procedure s newD).2) := by
  rcases hc : is_car_in_garage { s with distances := newD } with _ | _ <;>
    simp_all [start_parking_procedure, measure_and_update_distances]

/-- Claim C3 witness: with all readings at 50 cm against orange
thresholds of 10 cm the controller goes to PARKING and starts
detection. -/
theorem start_parking_decision_witness :
    (start_parking_procedure sIdleEmpty (fun _ => some 50)).1.process =
      some Process.PARKING ∧
    Event.publishProcess "PARKING" ∈
      (start_parking_procedure sIdleEmpty (fun _ => some 50)).2 ∧
    Event.startDetection ∈ (start_parking_procedure sIdleEmpty (fun _ => some 50)).2 :=
  (start_parking_decision sIdleEmpty (fun _ => some 50) rfl).2 (by decide)

/-- Claim C4: the obstacle vote is true iff strictly more than half the
sub-results are true, with the three N = 3 examples of the spec. -/
theorem majority_vote_spec :
    (∀ l : List Bool, majority_vote l = true ↔ l.length < 2 * l.count true) ∧
    majority_vote [true, true, false] = true ∧
    majority_vote [false, false, true] = false ∧
    majority_vote [true, false, false] = false := by
  refine ⟨?_, by simp [majority_vote]; norm_num, by simp [majority_vote]; norm_num,
    by simp [majority_vote]; norm_num⟩
  intro l
  unfold majority_vote
  rw [decide_eq_true_iff]
  constructor
  · intro h
    have h2 : (l.length : ℚ) < 2 * (l.count true : ℚ) := by linarith
    exact_mod_cast h2
  · intro h
    have h2 : (l.length : ℚ) < 2 * (l.count true : ℚ) := by exact_mod_cast h
    linarith

/-- Claim C5 counterexample: the automatic-closure evaluation fires at
time 6 on `sParked` and sets `system_enabled` to false while
`user_is_home` and `garage_door_open` both remain true, so the claimed
derived invariant does not hold after the closure evaluation. -/
theorem closure_breaks_enabled_invariant :
    enabledInvariant sParked ∧
    (handle_automatic_garage_closure sParked 6).1.system_enabled = false ∧
    (handle_automatic_garage_closure sParked 6).1.user_is_home = true ∧
    (handle_automatic_garage_closure sParked 6).1.garage_door_open = true ∧
    ¬ enabledInvariant (handle_automatic_garage_closure sParked 6).1 := by
  refine ⟨rfl, ?_, ?_, ?_, ?_⟩ <;>
    simp [handle_automatic_garage_closure, sParked, enabledInvariant] <;> norm_num

/-- Claim C5 amended: if the invariant `system_enabled = user_is_home
AND garage_door_open` holds, then it still holds after a settings
update, a user-presence event, a door-state event, and any door command
the gateway accepts; only the automatic-closure evaluation may break
it. -/
theorem gateway_preserves_enabled_invariant (s : State) (h : enabledInvariant s) :
    (∀ redU orangeU brightnessU,
      enabledInvariant (update_settings s redU orangeU brightnessU)) ∧
    (∀ status, enabledInvariant (on_user_status_update s status).1) ∧
    (∀ st, enabledInvariant (on_garage_state_update s st).1) ∧
    (∀ cmd newD s2 evs,
      on_garage_command s cmd newD = Except.ok (s2, evs) → enabledInvariant s2) := by
  refine ⟨fun _ _ _ => h, fun _ => rfl, fun _ => rfl, ?_⟩
  intro cmd newD s2 evs h2
  unfold on_garage_command at h2
  by_cases hopen : pyUpper cmd = "OPEN"
  · simp only [hopen, reduceIte] at h2
    by_cases hhome : s.user_is_home = true
    · simp only [hhome, if_true] at h2
      injection h2 with h3
      have h4 : _ = s2 := congrArg Prod.fst h3
      rw [← h4]
      exact update_system_enabled_state_inv _
    · simp only [Bool.not_eq_true] at hhome
      simp only [hhome, Bool.false_eq_true, if_false] at h2
      injection h2 with h3
      have h4 : _ = s2 := congrArg Prod.fst h3
      rw [← h4]
      exact h
  · simp only [hopen, if_false] at h2
    by_cases hclose : pyUpper cmd = "CLOSE"
    · simp only [hclose, reduceIte] at h2
      injection h2 with h3
      have h4 : _ = s2 := congrArg Prod.fst h3
      rw [← h4]
      exact update_system_enabled_state_inv _
    · simp only [hclose, if_false] at h2
      exact absurd h2 (by simp)

/-- Claim C5 amended witness: a user-presence event on `sParked`
re-establishes the invariant. -/
theorem gateway_preserves_enabled_invariant_witness :
    enabledInvariant (on_user_status_update sParked "off").1 :=
  (gateway_preserves_enabled_invariant sParked rfl).2.1 "off"

/-- Claim C6 counterexample: at expiry with the procedure still active
but the process equal to EXITING (not PARKING), the blink handler does
restart obstacle detection, contrary to the claim. -/
theorem blink_restart_in_exiting_cex :
    sExitingActive.process = some Process.EXITING ∧
    sExitingActive.process ≠ some Process.PARKING ∧
    Event.startDetection ∈ handle_blinking [true, true] sExitingActive := by
  refine ⟨rfl, by decide, ?_⟩
  simp [handle_blinking, handle_blinking_expiry, sExitingActive, sParked]

/-- Claim C6 amended: on normal expiry (no early-abort sample) the blink
handler stops blinking, restores the LEDs, and restarts obstacle
detection iff `parking_procedure_active` is still true — regardless of
whether the process is PARKING or EXITING. -/
theorem blink_expiry_restart (samples : List Bool) (s : State)
    (h : samples.contains false = false) :
    Event.stopBlinking ∈ handle_blinking samples s ∧
    Event.resetLedsDefault ∈ handle_blinking samples s ∧
    (Event.startDetection ∈ handle_blinking samples s ↔
      s.parking_procedure_active = true) := by
  unfold handle_blinking handle_blinking_expiry
  rw [h]
  rcases hact : s.parking_procedure_active with _ | _ <;> simp [hact]

/-- Claim C6 amended witness. -/
theorem blink_expiry_restart_witness :
    Event.stopBlinking ∈ handle_blinking [true, true] sExitingActive ∧
    Event.resetLedsDefault ∈ handle_blinking [true, true] sExitingActive ∧
    (Event.startDetection ∈ handle_blinking [true, true] sExitingActive ↔
      sExitingActive.parking_procedure_active = true) :=
  blink_expiry_restart [true, true] sExitingActive rfl

/-- Claim C7: the debounce timer is cleared, with no command and no
other effect, whenever the front reading is absent, non-positive, or no
front red threshold is configured, and whenever the front reading is
strictly above the red threshold; a red-zone tick with the timer unset
restarts the dwell from the current time; and on the spec's 2 cm / 5 cm
alternation scenario no CLOSE is sent and the timer restarts at the
re-entry time 6. -/
theorem closure_debounce_reset :
    (∀ s : State, ∀ now : ℚ, s.distances Sensor.front = none →
      handle_automatic_garage_closure s now =
        ({ s with red_proximity_start_time := none }, [])) ∧
    (∀ s : State, ∀ now d : ℚ, s.distances Sensor.front = some d → d ≤ 0 →
      handle_automatic_garage_closure s now =
        ({ s with red_proximity_start_time := none }, [])) ∧
    (∀ s : State, ∀ now : ℚ, s.red_threshold Sensor.front = none →
      handle_automatic_garage_closure s now =
        ({ s with red_proximity_start_time := none }, [])) ∧
    (∀ s : State, ∀ now d r : ℚ, s.distances Sensor.front = some d →
      s.red_threshold Sensor.front = some r → 0 < d → r < d →
      handle_automatic_garage_closure s now =
        ({ s with red_proximity_start_time := none }, [])) ∧
    (∀ s : State, ∀ now d r : ℚ, s.distances Sensor.front = some d →
      s.red_threshold Sensor.front = some r → 0 < d → d ≤ r →
      s.red_proximity_start_time = none →
      handle_automatic_garage_closure s now =
        ({ s with red_proximity_start_time := some now }, [])) ∧
    countClose (runTicks sParkedStart debounceTicks).2 = 0 ∧
    (runTicks sParkedStart debounceTicks).1.red_proximity_start_time = some 6 := by
  refine ⟨?_, ?_, ?_, ?_, ?_, ?_, ?_⟩
  · intro s now h
    unfold handle_automatic_garage_closure
    rcases hr : s.red_threshold Sensor.front with _ | r <;> simp [h, hr]
  · intro s now d h hd
    unfold handle_automatic_garage_closure
    rcases hr : s.red_threshold Sensor.front with _ | r <;>
      simp [h, hr, not_lt.mpr hd]
  · intro s now h
    unfold handle_automatic_garage_closure
    rcases hd : s.distances Sensor.front with _ | d <;> simp [h, hd]
  · intro s now d r hd hr h0 hlt
    unfold handle_automatic_garage_closure
    simp [hd, hr, h0, not_le.mpr hlt]
  · intro s now d r hd hr h0 hle ht
    unfold handle_automatic_garage_closure
    simp [hd, hr, h0, hle, ht]
  · simp [runTicks, measureThenClosure, measure_and_update_distances,
      handle_automatic_garage_closure, sParkedStart, sParked, dRed, dSafe,
      debounceTicks, countClose, isCloseCommand]
    norm_num
  · simp [runTicks, measureThenClosure, measure_and_update_distances,
      handle_automatic_garage_closure, sParkedStart, sParked, dRed, dSafe,
      debounceTicks]
    norm_num

/-- Claim C7 witness: with the front reading unavailable the evaluation
only clears the timer. -/
theorem closure_debounce_reset_witness :
    handle_automatic_garage_closure sNoFront 3 =
      ({ sNoFront with red_proximity_start_time := none }, []) :=
  closure_debounce_reset.1 sNoFront 3 rfl

/-- Claim C8 counterexample: with the procedure already active, the
re-entrant start logs only at info level, never at debug level, so
the "logged at debug level" part of the claim is false. -/
theorem start_parking_log_level_cex :
    sActive.parking_procedure_active = true ∧
    start_parking_procedure_logs sActive (fun _ => some 50) =
      [(LogLevel.info, "Parking procedure already active.")] ∧
    LogLevel.debug ∉
      (start_parking_procedure_logs sActive (fun _ => some 50)).map Prod.fst :=
  ⟨rfl, rfl, by decide⟩

/-- Claim C8 amended: a second start while the procedure is active
measures nothing, starts nothing, publishes nothing, changes no state,
and logs one info-level message instead of raising an error. -/
theorem start_parking_idempotent (s : State) (newD : Sensor → Option ℚ)
    (h : s.parking_procedure_active = true) :
    start_parking_procedure s newD = (s, []) ∧
    start_parking_procedure_logs s newD =
      [(LogLevel.info, "Parking procedure already active.")] := by
  unfold start_parking_procedure start_parking_procedure_logs
  simp [h]

/-- Claim C8 amended witness. -/
theorem start_parking_idempotent_witness :
    start_parking_procedure sActive (fun _ => some 50) = (sActive, []) ∧
    start_parking_procedure_logs sActive (fun _ => some 50) =
      [(LogLevel.info, "Parking procedure already active.")] :=
  start_parking_idempotent sActive (fun _ => some 50) rfl

/-- Claim C9: while the user is not home an OPEN command is rejected:
the unauthorized-attempt notice is the only event and the state is
returned unchanged. -/
theorem open_command_denied (s : State) (cmd : String) (newD : Sensor → Option ℚ)
    (hcmd : pyUpper cmd = "OPEN") (hhome : s.user_is_home = false) :
    on_garage_command s cmd newD = Except.ok (s, [Event.publishUnauthorized]) := by
  unfold on_garage_command
  simp [hcmd, hhome]

/-- Claim C9 witness. -/
theorem open_command_denied_witness :
    on_garage_command { sIdleEmpty with user_is_home := false } "open"
        (fun _ => some 50) =
      Except.ok ({ sIdleEmpty with user_is_home := false },
        [Event.publishUnauthorized]) :=
  open_command_denied { sIdleEmpty with user_is_home := false } "open"
    (fun _ => some 50) (by decide) rfl

/-- Claim C10: a CLOSE command is accepted in every state, regardless of
user presence: the door is closed, the procedure stopped, SystemEnabled
recomputed (to false), the new door state published, and no
unauthorized-attempt notice emitted. -/
theorem close_command_always_accepted (s : State) (cmd : String)
    (newD : Sensor → Option ℚ) (hcmd : pyUpper cmd = "CLOSE") :
    ∃ s2 evs, on_garage_command s cmd newD = Except.ok (s2, evs) ∧
      s2.garage_door_open = false ∧
      s2.parking_procedure_active = false ∧
      s2.system_enabled = false ∧
      s2.user_is_home = s.user_is_home ∧
      (s.parking_procedure_active = true →
        s2.process = none ∧ Event.stopDetection ∈ evs) ∧
      Event.publishGarageState false ∈ evs ∧
      Event.publishUnauthorized ∉ evs := by
  unfold on_garage_command
  rw [hcmd]
  simp only [reduceIte]
  unfold stop_parking_procedure update_system_enabled_state
  rcases hact : s.parking_procedure_active with _ | _ <;>
    simp [hact] <;> split <;> exact ⟨_, _, ⟨rfl, rfl⟩, by simp⟩

/-- Claim C10 witness: CLOSE is accepted with the user away and the
procedure active. -/
theorem close_command_always_accepted_witness :
    ∃ s2 evs, on_garage_command { sActive with user_is_home := false } "close"
        (fun _ => some 50) = Except.ok (s2, evs) ∧
      s2.garage_door_open = false ∧
      s2.parking_procedure_active = false ∧
      s2.system_enabled = false ∧
      s2.user_is_home = ({ sActive with user_is_home := false } : State).user_is_home ∧
      (({ sActive with user_is_home := false } : State).parking_procedure_active = true →
        s2.process = none ∧ Event.stopDetection ∈ evs) ∧
      Event.publishGarageState false ∈ evs ∧
      Event.publishUnauthorized ∉ evs :=
  close_command_always_accepted { sActive with user_is_home := false } "close"
    (fun _ => some 50) (by decide)

end GarageAssistant
